import Mathlib

/-!
Verification development for the p2p-direct-chat program (chat.go).

The Go program is shallowly embedded: the two loop functions readData
(InboundLoop) and writeData (OutboundLoop) become Lean functions over an
explicit sequence of buffered-read results, the buffered reader
(bufio.ReadWriter) over a finite byte stream is modelled by readString and
streamReads, and the main function becomes a trace of observable events
parameterised by the outcomes of the external libp2p/multiaddr
collaborators. Go strings are byte sequences, modelled as lists of
characters.
-/

namespace P2PChat

/-- Bytes on the wire and in buffers; Go strings are byte sequences. -/
abbrev Bytes := List Char

/-- Errors a buffered read can report: eof is io.EOF (end of stream),
other is any other read error. The chat code never inspects which one
occurred. -/
inductive ReadError
  | eof
  | other (msg : String)
deriving DecidableEq

/-- Result of one bufio ReadString call: the data read (up to and
including the first delimiter, or whatever was read before an error) and
the error, if any. bufio guarantees the error is none exactly when the
data ends in the delimiter. -/
structure ReadResult where
  data : Bytes
  err : Option ReadError
deriving DecidableEq

/-- bufio Reader ReadString with a line-feed delimiter, over a finite byte
stream: returns the data read (up to and including the first line feed, or
the whole stream when it holds none) together with the remaining stream. -/
def readString : Bytes → Bytes × Bytes
  | [] => ([], [])
  | c :: rest =>
    if c = '\n' then ([c], rest)
    else
      let p := readString rest
      (c :: p.1, p.2)

/-- Outcome of running readData over a finite sequence of read results:
the lines rendered to the console (the strings handed to the render
Printf), whether the loop executed its return statement, and the read
results left unconsumed at that return. -/
structure InboundRun where
  rendered : List Bytes
  returned : Bool
  remaining : List ReadResult
deriving DecidableEq

/-- readData from chat.go, over an explicit sequence of read results.
The Go loop body is: read a line discarding the error
(str, _ := rw.ReadString), return when str is empty, render str unless it
is exactly the terminator. When the modelled read sequence is exhausted
without an empty read, the run ends with returned = false (the real loop
would simply block on the next read). -/
def readData : List ReadResult → InboundRun
  | [] => ⟨[], false, []⟩
  | r :: rest =>
    if r.data = [] then ⟨[], true, rest⟩
    else if r.data = ['\n'] then readData rest
    else
      let p := readData rest
      ⟨r.data :: p.rendered, p.returned, p.remaining⟩

/-- Console rendering of one received line in readData:
Printf("\x1b[32m%s\x1b[0m$> ", str). -/
def consoleRender (l : Bytes) : Bytes :=
  "\x1b[32m".data ++ l ++ "\x1b[0m$> ".data

/-- Outcome of running writeData over a finite sequence of console read
results: the chunks written to the output cursor (each one flushed before
the next console read), and the diagnostic printed when the loop aborted
the process on a console read error. -/
structure OutboundRun where
  chunks : List Bytes
  aborted : Option String
deriving DecidableEq

/-- writeData from chat.go, over the sequence of console (stdin)
ReadString results. Each iteration prints the prompt, reads a line, and on
a read error prints a diagnostic and panics (aborting the process);
otherwise it writes Sprintf("%s\n", sendData) to the output cursor and
flushes. Each element of chunks is one such written-and-flushed string;
the prompt printing is console output and not part of the stream. -/
def writeData : List ReadResult → OutboundRun
  | [] => ⟨[], none⟩
  | r :: rest =>
    match r.err with
    | some _ => ⟨[], some "!! Error reading input from stdin"⟩
    | none =>
      let p := writeData rest
      ⟨(r.data ++ ['\n']) :: p.chunks, p.aborted⟩

/-- The sequence of ReadString results a finite byte stream produces: full
lines carry no error, a trailing fragment without a terminator carries
eof, and once the stream is exhausted ReadString yields the empty string
with eof (modelled by the final element). -/
def streamReads (s : Bytes) : List ReadResult :=
  if h : (readString s).1 = [] then [⟨[], some ReadError.eof⟩]
  else
    ⟨(readString s).1,
      if (readString s).1.getLast? = some '\n' then none
      else some ReadError.eof⟩ :: streamReads (readString s).2
termination_by s.length
decreasing_by
  have hle : ∀ t : Bytes, (readString t).2.length ≤ t.length := by
    intro t
    induction t with
    | nil => simp [readString]
    | cons a r ih =>
      by_cases ha : a = '\n'
      · simp [readString, ha]
      · simp only [readString, ha, if_false, List.length_cons]
        omega
  cases s with
  | nil => exact absurd rfl h
  | cons a r =>
    by_cases ha : a = '\n'
    · simp [readString, ha]
    · simp only [readString, ha, if_false, List.length_cons]
      have := hle r
      omega

/-- The lines readData renders when its input cursor is the given finite
byte stream (followed by end of stream). -/
def inboundRendered (s : Bytes) : List Bytes :=
  (readData (streamReads s)).rendered

/-- The console read results produced when the operator types the given
line contents: stdin ReadString returns each content with its terminating
line feed and no error. -/
def consoleReads (cs : List Bytes) : List ReadResult :=
  cs.map (fun c => ⟨c ++ ['\n'], none⟩)

/-- The bytes side A places on the shared stream when its operator types
the given line contents: the concatenation of the chunks writeData writes
and flushes. -/
def sideAStream (cs : List Bytes) : Bytes :=
  ((writeData (consoleReads cs)).chunks).flatten

/-- ProtocolTag from chat.go: the protocol identifier used both to
register the inbound handler and to open the outbound stream. -/
def protocolTag : String := "/chat/1.0.0"

/-- One observable step of a program run, for trace-level claims.
panicAbort is a panic terminating the process, preceded in the trace by
the printed diagnostic; newTranscript is bufio.NewReadWriter wrapping a
raw stream (a StreamTranscript); startInboundLoop and startOutboundLoop
are the go readData and go writeData spawns. -/
inductive Event
  | print (s : String)
  | exitZero
  | panicAbort (msg : String)
  | generateKeyPair
  | newSourceMultiaddr
  | createHost
  | setStreamHandler (tag : String)
  | advertiseAddress (port : String)
  | blockForever
  | parseDestAddr (dest : String)
  | extractPeerInfo
  | registerPeerstore
  | openStream (tag : String)
  | newTranscript
  | startInboundLoop
  | startOutboundLoop
deriving DecidableEq

/-- Outcomes of the external collaborators (libp2p, multiaddr), which the
program only checks for success or failure, together with the
ValueForProtocol(P_TCP) result for each local listen address and the
number of inbound streams remote peers open during the run (each one
invokes the registered handler once). -/
structure World where
  keyGenOk : Bool
  hostOk : Bool
  listenTCPPorts : List (Option String)
  destParseOk : Bool
  addrInfoOk : Bool
  streamOk : Bool
  inboundStreamEvents : Nat
deriving DecidableEq

/-- The command-line flags of chat.go: -port, -dest, -help. -/
structure Flags where
  port : Int
  dest : String
  help : Bool

/-- handleStream from chat.go: invoked by the transport once per inbound
stream; it wraps the new raw stream in a buffered read-writer (a
StreamTranscript) and spawns go readData and go writeData on it. -/
def handleStream : List Event :=
  [.print "-- Found a new stream, opening two way read-write buffer",
   .newTranscript,
   .print "-- Created buffer, now listening infinetly for reads and writes",
   .startInboundLoop,
   .startOutboundLoop]

/-- The trace of n invocations of the registered stream handler, one per
inbound stream event. -/
def handlerRuns : Nat → List Event
  | 0 => []
  | n + 1 => handleStream ++ handlerRuns n

/-- The port-extraction loop of the listener branch in main: the TCP value
of the first listen address whose ValueForProtocol call succeeds,
otherwise the empty string. -/
def firstTCPPort : List (Option String) → String
  | [] => ""
  | some p :: _ => p
  | none :: rest => firstTCPPort rest

/-- First usage line printed by main for -help. -/
def usage1 : String :=
  "-- This program demonstrates a simple p2p chat application using libp2p\n"

/-- Second usage line printed by main for -help. -/
def usage2 : String :=
  "-- Usage: Run \x27./chat -port <PORT>\x27 where <PORT> can be any port number, e.g., 6666 or 8888, etc."

/-- Third usage line printed by main for -help. -/
def usage3 : String :=
  "-- Now run \x27./chat -dest <MULTIADDR>\x27 where <MULTIADDR> is multiaddress of previous listener host."

/-- main from chat.go as the trace of observable events of one run, given
the parsed flags and the collaborator outcomes. A panicAbort ends the
trace (nothing executes after a panic). In the listener branch the
registered handler runs asynchronously, once per inbound stream event,
while main blocks forever; the trace lists those handler runs after
blockForever. The per-address listing Printf of the dialer branch and the
error ignored by NewMultiaddr for the source address are elided, since
the addresses themselves are not modelled. -/
def main (f : Flags) (w : World) : List Event :=
  if f.help then
    [.print usage1, .print usage2, .print usage3, .exitZero]
  else
    .print "-- Got peer ID" ::
    .generateKeyPair ::
    if w.keyGenOk = false then
      [.print "!! Error generating RSA key pair", .panicAbort "err"]
    else
      .print "-- Created RSA key pair" ::
      .newSourceMultiaddr ::
      .createHost ::
      if w.hostOk = false then
        [.print "!! Error creating host object", .panicAbort "err"]
      else
        .print "-- Creating host object" ::
        if f.dest = "" then
          .setStreamHandler protocolTag ::
          if firstTCPPort w.listenTCPPorts = "" then
            [.print "!! Unable to find local port \n",
             .panicAbort "Unable to find actual local port"]
          else
            .advertiseAddress (firstTCPPort w.listenTCPPorts) ::
            .blockForever ::
            handlerRuns w.inboundStreamEvents
        else
          .print "-- This node\x27s multiaddrs are:" ::
          .parseDestAddr f.dest ::
          if w.destParseOk = false then
            [.print "!! Failed to parse multiaddr provided.", .panicAbort "err"]
          else
            .print "-- Parsing multiaddr" ::
            .extractPeerInfo ::
            if w.addrInfoOk = false then
              [.print "!! Failed to get the peer\x27s ID from multiaddr provided.",
               .panicAbort "err"]
            else
              .print "-- Retrieving peer ID" ::
              .registerPeerstore ::
              .openStream protocolTag ::
              if w.streamOk = false then
                [.print "!! Failed to initiate stream with host", .panicAbort "err"]
              else
                .print "-- Initiated stream with host." ::
                .newTranscript ::
                .startOutboundLoop ::
                .startInboundLoop ::
                [.blockForever]

/-- Whether an event is the creation of a StreamTranscript. -/
def isNewTranscript : Event → Bool
  | .newTranscript => true
  | _ => false

/-- Whether an event is the spawn of an InboundLoop. -/
def isStartInboundLoop : Event → Bool
  | .startInboundLoop => true
  | _ => false

/-- Whether an event is the spawn of an OutboundLoop. -/
def isStartOutboundLoop : Event → Bool
  | .startOutboundLoop => true
  | _ => false

/-- Whether an event is the registration of a stream handler (the first
step of the Listener path). -/
def isSetStreamHandler : Event → Bool
  | .setStreamHandler _ => true
  | _ => false

/-- Whether an event is the parsing of the destination address (the first
step of the Dialer path). -/
def isParseDestAddr : Event → Bool
  | .parseDestAddr _ => true
  | _ => false

/-- Number of StreamTranscripts created in a trace. -/
def countTranscripts (t : List Event) : Nat :=
  (t.filter isNewTranscript).length

/-- Number of InboundLoop spawns in a trace. -/
def countInboundStarts (t : List Event) : Nat :=
  (t.filter isStartInboundLoop).length

/-- Number of OutboundLoop spawns in a trace. -/
def countOutboundStarts (t : List Event) : Nat :=
  (t.filter isStartOutboundLoop).length

/-- Whether a run took the Listener path (registered a stream handler). -/
def tookListenerPath (t : List Event) : Bool :=
  t.any isSetStreamHandler

/-- Whether a run took the Dialer path (parsed the destination address,
on the way to registering the peerstore entry and opening the stream). -/
def tookDialerPath (t : List Event) : Bool :=
  t.any isParseDestAddr

/-- Whether an event is a networking operation in the sense of the help
claim: identity generation, host creation, or any listening or dialing
step. -/
def isNetworkingOp : Event → Bool
  | .generateKeyPair => true
  | .newSourceMultiaddr => true
  | .createHost => true
  | .setStreamHandler _ => true
  | .advertiseAddress _ => true
  | .blockForever => true
  | .parseDestAddr _ => true
  | .extractPeerInfo => true
  | .registerPeerstore => true
  | .openStream _ => true
  | .newTranscript => true
  | .startInboundLoop => true
  | .startOutboundLoop => true
  | _ => false

/-- C2: for every operator input line obtained from the console read (a
string already ending in the line-feed terminator, written here as
c ++ line-feed), writeData writes to the output cursor that string
followed by one additional line-feed as a single flushed chunk, so every
message sent is followed by exactly one extra blank line on the stream,
and then continues with the remaining console reads. -/
theorem writeData_appends_one_linefeed (c : Bytes) (rest : List ReadResult) :
    writeData (⟨c ++ ['\n'], none⟩ :: rest)
      = ⟨((c ++ ['\n']) ++ ['\n']) :: (writeData rest).chunks,
         (writeData rest).aborted⟩ := rfl

/-- C8: for every failure of the console line read in writeData, whatever
the error and whatever partial data came with it, the loop prints the
diagnostic and panics, aborting the whole process: no chunk is written and
no further console read happens. -/
theorem writeData_aborts_on_console_error (d : Bytes) (e : ReadError)
    (rest : List ReadResult) :
    writeData (⟨d, some e⟩ :: rest)
      = ⟨[], some "!! Error reading input from stdin"⟩ := rfl

/-- C5: a read yielding a line that is exactly the terminator renders
nothing and the loop continues with the remaining reads exactly as if the
blank line had not been read at all; in particular it does not terminate
the loop. -/
theorem readData_suppresses_blank_line (e : Option ReadError)
    (rest : List ReadResult) :
    readData (⟨['\n'], e⟩ :: rest) = readData rest := by
  simp [readData]

/-- C6: readData returns immediately on an empty read, rendering nothing
and consuming none of the later reads; and the empty read is its only
normal termination path: a read sequence containing no empty read never
makes the loop return. -/
theorem readData_returns_only_on_empty_read :
    (∀ (e : Option ReadError) (rest : List ReadResult),
        readData (⟨[], e⟩ :: rest) = ⟨[], true, rest⟩)
    ∧ (∀ rs : List ReadResult, (∀ r ∈ rs, r.data ≠ []) →
        (readData rs).returned = false) := by
  constructor
  · intro e rest
    rfl
  · intro rs h
    induction rs with
    | nil => rfl
    | cons r rest ih =>
      have hr : ¬ r.data = [] := h r (List.mem_cons_self r rest)
      have hrest : ∀ x ∈ rest, x.data ≠ [] :=
        fun x hx => h x (List.mem_cons_of_mem r hx)
      by_cases hb : r.data = ['\n']
      · simpa [readData, hr, hb] using ih hrest
      · simpa [readData, hr, hb] using ih hrest

/-- Witness for readData_returns_only_on_empty_read at a concrete
one-element read sequence with no empty read. -/
theorem readData_returns_only_on_empty_read_witness :
    (readData [⟨['a'], none⟩]).returned = false :=
  readData_returns_only_on_empty_read.2 [⟨['a'], none⟩] (by decide)

/-- Counterexample to C7 as stated: a read that fails with an error other
than end-of-stream but delivers partial data ("hi" with a connection-reset
error) does not terminate the loop silently: the partial data is rendered,
the loop performs the next read and renders it too, and the run ends
without the loop ever having executed its return. -/
theorem readData_error_read_renders :
    readData [⟨['h', 'i'], some (ReadError.other "connection reset")⟩,
              ⟨['y', 'o', '\n'], none⟩]
      = ⟨[['h', 'i'], ['y', 'o', '\n']], false, []⟩
    ∧ (readData [⟨['h', 'i'], some (ReadError.other "connection reset")⟩,
                 ⟨['y', 'o', '\n'], none⟩]).rendered ≠ []
    ∧ (readData [⟨['h', 'i'], some (ReadError.other "connection reset")⟩,
                 ⟨['y', 'o', '\n'], none⟩]).returned = false := by
  refine ⟨rfl, ?_, rfl⟩
  decide

/-- C7 amended: readData discards the read error, so a read failing with
any error is handled exactly as a read failing with end-of-stream and the
same data; in particular a failing read that delivers no data terminates
the loop silently, exactly as end-of-stream does, with the transcript
never retried or reopened, while a failing read that delivers partial
data is handled like a successful read of that data. -/
theorem readData_ignores_read_error :
    (∀ (d : Bytes) (e e' : Option ReadError) (rest : List ReadResult),
        readData (⟨d, e⟩ :: rest) = readData (⟨d, e'⟩ :: rest))
    ∧ (∀ (e : ReadError) (rest : List ReadResult),
        readData (⟨[], some e⟩ :: rest) = ⟨[], true, rest⟩) := by
  exact ⟨fun d e e' rest => rfl, fun e rest => rfl⟩

/-- ReadString on a stream starting with a terminated line whose content
holds no interior line feed returns exactly that line and leaves the rest
of the stream. -/
theorem readString_line : ∀ (c s : Bytes), '\n' ∉ c →
    readString (c ++ '\n' :: s) = (c ++ ['\n'], s) := by
  intro c
  induction c with
  | nil =>
    intro s h
    simp [readString]
  | cons a c ih =>
    intro s h
    have ha : ¬ a = '\n' := fun hh => h (by simp [hh])
    have hc : '\n' ∉ c := fun hh => h (List.mem_cons_of_mem _ hh)
    simp [readString, ha, ih s hc]

/-- streamReads on the empty stream is the single empty end-of-stream
read. -/
theorem streamReads_nil : streamReads [] = [⟨[], some ReadError.eof⟩] := by
  rw [streamReads]
  simp [readString]

/-- streamReads on a stream starting with a terminated line (content
without interior line feeds) yields that line as an error-free read
followed by the reads of the rest of the stream. -/
theorem streamReads_cons_line (c s : Bytes) (h : '\n' ∉ c) :
    streamReads (c ++ '\n' :: s) = ⟨c ++ ['\n'], none⟩ :: streamReads s := by
  rw [streamReads, readString_line c s h]
  simp

/-- streamReads on a stream starting with a blank line. -/
theorem streamReads_cons_blank (s : Bytes) :
    streamReads ('\n' :: s) = ⟨['\n'], none⟩ :: streamReads s := by
  have h := streamReads_cons_line [] s (by simp)
  simpa using h

/-- The chunks writeData flushes for a sequence of typed line contents:
each content with its console terminator and the one extra line feed the
loop appends. -/
theorem writeData_consoleReads (cs : List Bytes) :
    (writeData (consoleReads cs)).chunks
      = cs.map (fun c => (c ++ ['\n']) ++ ['\n']) := by
  induction cs with
  | nil => rfl
  | cons c cs ih =>
    show (writeData (⟨c ++ ['\n'], none⟩ :: consoleReads cs)).chunks = _
    simp [writeData, ih]

/-- Composition of writeData's transmission with readData's rendering:
over the byte stream obtained by concatenating the flushed chunks for the
typed contents, the rendered lines are exactly the non-empty contents,
each with its terminator. -/
theorem readData_streamReads_lines : ∀ (cs : List Bytes),
    (∀ c ∈ cs, '\n' ∉ c) →
    (readData (streamReads
        ((cs.map (fun c => (c ++ ['\n']) ++ ['\n'])).flatten))).rendered
      = (cs.filter (fun c => !c.isEmpty)).map (fun c => c ++ ['\n']) := by
  intro cs
  induction cs with
  | nil =>
    intro h
    simp [streamReads_nil, readData]
  | cons c cs ih =>
    intro h
    have hc : '\n' ∉ c := h c (List.mem_cons_self c cs)
    have hcs : ∀ x ∈ cs, '\n' ∉ x :=
      fun x hx => h x (List.mem_cons_of_mem c hx)
    have hstream :
        (((c ++ ['\n']) ++ ['\n'])
            :: cs.map (fun c => (c ++ ['\n']) ++ ['\n'])).flatten
          = c ++ '\n'
              :: ('\n' :: (cs.map (fun c => (c ++ ['\n']) ++ ['\n'])).flatten) := by
      simp
    rw [List.map_cons, hstream, streamReads_cons_line c _ hc,
        streamReads_cons_blank]
    by_cases hce : c = []
    · subst hce
      simpa [readData] using ih hcs
    · have h1 : ¬ c ++ ['\n'] = [] := by simp
      have h2 : ¬ c ++ ['\n'] = ['\n'] := by
        intro hh
        exact hce (List.append_left_eq_self.mp hh)
      simp only [readData, h1, h2, if_false]
      simpa [List.filter_cons, hce, readData] using ih hcs

/-- Rendering on side B of the bytes side A put on the shared stream:
exactly the non-empty typed contents, each with its terminator. -/
theorem inboundRendered_sideAStream (cs : List Bytes)
    (h : ∀ c ∈ cs, '\n' ∉ c) :
    inboundRendered (sideAStream cs)
      = (cs.filter (fun c => !c.isEmpty)).map (fun c => c ++ ['\n']) := by
  unfold inboundRendered sideAStream
  rw [writeData_consoleReads]
  exact readData_streamReads_lines cs h

/-- C1: for every line written by writeData on side A (the console input
c with its terminator) that is not equal to just the terminator, the very
same line appears as a line rendered by readData on side B over the shared
byte stream, and dropping its terminator recovers the original content
byte for byte. -/
theorem line_roundtrip (cs : List Bytes) (hnl : ∀ c ∈ cs, '\n' ∉ c)
    (c : Bytes) (hmem : c ∈ cs) (hne : c ≠ []) :
    (c ++ ['\n']) ∈ inboundRendered (sideAStream cs)
    ∧ (c ++ ['\n']).dropLast = c := by
  constructor
  · rw [inboundRendered_sideAStream cs hnl]
    exact List.mem_map_of_mem _ (List.mem_filter.mpr ⟨hmem, by simp [hne]⟩)
  · simp

/-- Witness for line_roundtrip on the single typed line "hi". -/
theorem line_roundtrip_witness :
    ((['h', 'i'] : Bytes) ++ ['\n']) ∈ inboundRendered (sideAStream [['h', 'i']])
    ∧ ((['h', 'i'] : Bytes) ++ ['\n']).dropLast = ['h', 'i'] :=
  line_roundtrip [['h', 'i']] (by decide) ['h', 'i'] (by decide) (by decide)

/-- handlerRuns contains no destination-address parsing: the registered
handler only wraps streams and spawns loops. -/
theorem handlerRuns_mem_no_parseDest (n : Nat) :
    ∀ e ∈ handlerRuns n, isParseDestAddr e = false := by
  induction n with
  | zero =>
    intro e he
    simp [handlerRuns] at he
  | succ n ih =>
    intro e he
    simp only [handlerRuns, List.mem_append] at he
    rcases he with h1 | h2
    · simp only [handleStream, List.mem_cons, List.not_mem_nil, or_false] at h1
      rcases h1 with rfl | rfl | rfl | rfl | rfl <;> rfl
    · exact ih e h2

/-- C4: with setup reaching role selection, which path main takes is a
function of the dest flag alone: non-empty dest always takes the Dialer
path and never the Listener path, empty dest always the Listener path and
never the Dialer path, whatever the port flag and whatever the
collaborator outcomes. -/
theorem role_selected_by_dest_only (port : Int) (dest : String) (w : World)
    (hk : w.keyGenOk = true) (hh : w.hostOk = true) :
    tookListenerPath (main ⟨port, dest, false⟩ w)
      = (if dest = "" then true else false)
    ∧ tookDialerPath (main ⟨port, dest, false⟩ w)
      = (if dest = "" then false else true) := by
  by_cases hd : dest = ""
  · by_cases hfp : firstTCPPort w.listenTCPPorts = ""
    · constructor <;>
        simp [main, hk, hh, hd, hfp, tookListenerPath, tookDialerPath,
          isSetStreamHandler, isParseDestAddr]
    · constructor
      · simp [main, hk, hh, hd, hfp, tookListenerPath, isSetStreamHandler]
      · simp [main, hk, hh, hd, hfp, tookDialerPath, isParseDestAddr]
        intro a ha
        have h2 := handlerRuns_mem_no_parseDest w.inboundStreamEvents a ha
        simpa [isParseDestAddr] using h2
  · constructor <;>
      simp [main, hk, hh, hd, tookListenerPath, tookDialerPath,
        isSetStreamHandler, isParseDestAddr] <;>
      split_ifs <;>
      simp [isSetStreamHandler, isParseDestAddr]

/-- Witness for role_selected_by_dest_only at an empty dest with a
successful world. -/
theorem role_selected_by_dest_only_witness :
    tookListenerPath (main ⟨0, "", false⟩ ⟨true, true, [some "7777"], true, true, true, 0⟩) = true
    ∧ tookDialerPath (main ⟨0, "", false⟩ ⟨true, true, [some "7777"], true, true, true, 0⟩) = false := by
  have h := role_selected_by_dest_only 0 ""
    ⟨true, true, [some "7777"], true, true, true, 0⟩ rfl rfl
  simpa using h

/-- firstTCPPort of a list of all-failed ValueForProtocol results is the
empty string. -/
theorem firstTCPPort_all_none : ∀ (l : List (Option String)),
    (∀ x ∈ l, x = none) → firstTCPPort l = "" := by
  intro l
  induction l with
  | nil => intro _; rfl
  | cons a l ih =>
    intro h
    have ha : a = none := h a (List.mem_cons_self a l)
    subst ha
    exact ih (fun x hx => h x (List.mem_cons_of_mem _ hx))

/-- C9: in the Listener path, when no TCP port can be extracted from any
of the listen addresses, the run is exactly the setup prefix followed by
the diagnostic print and the panic: the process aborts before advertising
any address, before waiting for connections, and before any transcript
exists. -/
theorem listener_no_port_aborts (port : Int) (w : World)
    (hk : w.keyGenOk = true) (hh : w.hostOk = true)
    (hnone : ∀ x ∈ w.listenTCPPorts, x = none) :
    main ⟨port, "", false⟩ w
      = [.print "-- Got peer ID", .generateKeyPair,
         .print "-- Created RSA key pair", .newSourceMultiaddr, .createHost,
         .print "-- Creating host object", .setStreamHandler protocolTag,
         .print "!! Unable to find local port \n",
         .panicAbort "Unable to find actual local port"]
    ∧ (∀ p, Event.advertiseAddress p ∉ main ⟨port, "", false⟩ w)
    ∧ Event.blockForever ∉ main ⟨port, "", false⟩ w
    ∧ Event.newTranscript ∉ main ⟨port, "", false⟩ w := by
  have hfp : firstTCPPort w.listenTCPPorts = "" :=
    firstTCPPort_all_none _ hnone
  have htrace : main ⟨port, "", false⟩ w
      = [.print "-- Got peer ID", .generateKeyPair,
         .print "-- Created RSA key pair", .newSourceMultiaddr, .createHost,
         .print "-- Creating host object", .setStreamHandler protocolTag,
         .print "!! Unable to find local port \n",
         .panicAbort "Unable to find actual local port"] := by
    simp [main, hk, hh, hfp]
  refine ⟨htrace, ?_, ?_, ?_⟩ <;> rw [htrace] <;> simp

/-- Witness for listener_no_port_aborts with a single listen address
whose TCP extraction fails. -/
theorem listener_no_port_aborts_witness :
    main ⟨0, "", false⟩ ⟨true, true, [none], true, true, true, 0⟩
      = [.print "-- Got peer ID", .generateKeyPair,
         .print "-- Created RSA key pair", .newSourceMultiaddr, .createHost,
         .print "-- Creating host object", .setStreamHandler protocolTag,
         .print "!! Unable to find local port \n",
         .panicAbort "Unable to find actual local port"]
    ∧ (∀ p, Event.advertiseAddress p ∉ main ⟨0, "", false⟩ ⟨true, true, [none], true, true, true, 0⟩)
    ∧ Event.blockForever ∉ main ⟨0, "", false⟩ ⟨true, true, [none], true, true, true, 0⟩
    ∧ Event.newTranscript ∉ main ⟨0, "", false⟩ ⟨true, true, [none], true, true, true, 0⟩ :=
  listener_no_port_aborts 0 ⟨true, true, [none], true, true, true, 0⟩ rfl rfl
    (by decide)

/-- C10: when the help flag is given, the run is exactly the three usage
prints followed by exit status 0, and it contains no networking operation:
no identity generation, no host creation, no listening, no dialing. -/
theorem help_flag_usage_exit (f : Flags) (w : World) (hf : f.help = true) :
    main f w = [.print usage1, .print usage2, .print usage3, .exitZero]
    ∧ ∀ e ∈ main f w, isNetworkingOp e = false := by
  have htrace : main f w
      = [.print usage1, .print usage2, .print usage3, .exitZero] := by
    simp [main, hf]
  refine ⟨htrace, ?_⟩
  rw [htrace]
  intro e he
  simp only [List.mem_cons, List.not_mem_nil, or_false] at he
  rcases he with rfl | rfl | rfl | rfl <;> rfl

/-- Witness for help_flag_usage_exit at a concrete invocation. -/
theorem help_flag_usage_exit_witness :
    main ⟨0, "", true⟩ ⟨true, true, [], true, true, true, 0⟩
      = [.print usage1, .print usage2, .print usage3, .exitZero]
    ∧ ∀ e ∈ main ⟨0, "", true⟩ ⟨true, true, [], true, true, true, 0⟩,
        isNetworkingOp e = false :=
  help_flag_usage_exit ⟨0, "", true⟩ ⟨true, true, [], true, true, true, 0⟩ rfl

/-- Counterexample to C3 as stated: a Listener run in which remote peers
open two inbound streams creates two StreamTranscripts (the registered
handler wraps each inbound stream in its own buffered read-writer), so
"at most one StreamTranscript per run, for every sequence of inbound
connection events" fails on the code. -/
theorem single_transcript_counterexample :
    countTranscripts
        (main ⟨0, "", false⟩ ⟨true, true, [some "6666"], true, true, true, 2⟩) = 2
    ∧ ¬ countTranscripts
        (main ⟨0, "", false⟩ ⟨true, true, [some "6666"], true, true, true, 2⟩) ≤ 1 := by
  decide

/-- handlerRuns creates one transcript per handler invocation. -/
theorem handlerRuns_transcripts (n : Nat) :
    ((handlerRuns n).filter isNewTranscript).length = n := by
  induction n with
  | zero => rfl
  | succ n ih =>
    simp [handlerRuns, List.filter_append, handleStream, isNewTranscript, ih]

/-- handlerRuns spawns one InboundLoop per handler invocation. -/
theorem handlerRuns_inbound_starts (n : Nat) :
    ((handlerRuns n).filter isStartInboundLoop).length = n := by
  induction n with
  | zero => rfl
  | succ n ih =>
    simp [handlerRuns, List.filter_append, handleStream, isStartInboundLoop, ih]

/-- handlerRuns spawns one OutboundLoop per handler invocation. -/
theorem handlerRuns_outbound_starts (n : Nat) :
    ((handlerRuns n).filter isStartOutboundLoop).length = n := by
  induction n with
  | zero => rfl
  | succ n ih =>
    simp [handlerRuns, List.filter_append, handleStream, isStartOutboundLoop, ih]

/-- C3 amended: a successful Dialer run creates exactly one
StreamTranscript; a Listener run creates exactly one StreamTranscript per
inbound connection event (nothing enforces at most one per run); and on
every transcript exactly one InboundLoop/OutboundLoop pair is started,
so the spawn counts equal the transcript count. -/
theorem transcripts_per_run (port : Int) (dest : String) (w : World)
    (hk : w.keyGenOk = true) (hh : w.hostOk = true)
    (hport : dest = "" → firstTCPPort w.listenTCPPorts ≠ "")
    (hparse : dest ≠ "" → w.destParseOk = true)
    (hinfo : dest ≠ "" → w.addrInfoOk = true)
    (hstream : dest ≠ "" → w.streamOk = true) :
    countTranscripts (main ⟨port, dest, false⟩ w)
      = (if dest = "" then w.inboundStreamEvents else 1)
    ∧ countInboundStarts (main ⟨port, dest, false⟩ w)
      = countTranscripts (main ⟨port, dest, false⟩ w)
    ∧ countOutboundStarts (main ⟨port, dest, false⟩ w)
      = countTranscripts (main ⟨port, dest, false⟩ w) := by
  by_cases hd : dest = ""
  · have hp := hport hd
    simp [main, hk, hh, hd, hp, countTranscripts, countInboundStarts,
      countOutboundStarts, List.filter_cons, isNewTranscript,
      isStartInboundLoop, isStartOutboundLoop, handlerRuns_transcripts,
      handlerRuns_inbound_starts, handlerRuns_outbound_starts]
  · have hp := hparse hd
    have hi := hinfo hd
    have hs := hstream hd
    simp [main, hk, hh, hd, hp, hi, hs, countTranscripts, countInboundStarts,
      countOutboundStarts, List.filter_cons, isNewTranscript,
      isStartInboundLoop, isStartOutboundLoop]

/-- Witness for transcripts_per_run: a Listener run with three inbound
connection events creates three transcripts and three loop pairs. -/
theorem transcripts_per_run_witness :
    countTranscripts
        (main ⟨0, "", false⟩ ⟨true, true, [some "6666"], true, true, true, 3⟩) = 3
    ∧ countInboundStarts
        (main ⟨0, "", false⟩ ⟨true, true, [some "6666"], true, true, true, 3⟩)
      = countTranscripts
        (main ⟨0, "", false⟩ ⟨true, true, [some "6666"], true, true, true, 3⟩)
    ∧ countOutboundStarts
        (main ⟨0, "", false⟩ ⟨true, true, [some "6666"], true, true, true, 3⟩)
      = countTranscripts
        (main ⟨0, "", false⟩ ⟨true, true, [some "6666"], true, true, true, 3⟩) := by
  have h := transcripts_per_run 0 ""
    ⟨true, true, [some "6666"], true, true, true, 3⟩ rfl rfl
    (fun _ => by decide) (fun hd => absurd rfl hd) (fun hd => absurd rfl hd)
    (fun hd => absurd rfl hd)
  simpa using h

end P2PChat
